import Mathlib

/-!
Verification of cf-dns-edit (a Cloudflare DNS terminal editor) against its
natural-language specification.  The repository has two entry points:
`cf_dns_edit/__init__.py` (a simple-term-menu flow with full CRUD) and
`cf_dns_edit/main.py` (a Textual TUI with partial CRUD).  Both are embedded
shallowly below: user interaction becomes explicit input parameters, remote
Cloudflare calls become values of an explicit `RemoteCall` type, and `print`/
`notify` output becomes lists of message strings.
-/

namespace CfDnsEdit

/-! ### Python string primitives (ASCII fragment used by the program) -/

/-- Python `str.strip` whitespace test: space, tab, newline, carriage return,
vertical tab, form feed. -/
def isPyWs (c : Char) : Bool :=
  c == ' ' || c == '\t' || c == '\n' || c == '\r' ||
  c == Char.ofNat 11 || c == Char.ofNat 12

/-- Python `str.lower` on one ASCII character. -/
def pyLowerChar (c : Char) : Char :=
  if 'A' ≤ c && c ≤ 'Z' then Char.ofNat (c.toNat + 32) else c

/-- Python `str.upper` on one ASCII character. -/
def pyUpperChar (c : Char) : Char :=
  if 'a' ≤ c && c ≤ 'z' then Char.ofNat (c.toNat - 32) else c

/-- Python `str.lower` (ASCII inputs). -/
def pyLower (s : String) : String := String.mk (s.data.map pyLowerChar)

/-- Python `str.upper` (ASCII inputs). -/
def pyUpper (s : String) : String := String.mk (s.data.map pyUpperChar)

/-- Python `str.strip`: drop leading and trailing whitespace. -/
def pyStrip (s : String) : String :=
  String.mk (((s.data.dropWhile isPyWs).reverse.dropWhile isPyWs).reverse)

def isDigitChar (c : Char) : Bool := '0' ≤ c && c ≤ '9'

def digitVal (c : Char) : Nat := c.toNat - 48

/-- Digits of a Python integer literal after the first digit: single
underscores are permitted between digits, nowhere else. -/
def pyIntDigits : Nat → List Char → Option Nat
  | acc, [] => some acc
  | _, ['_'] => none
  | acc, '_' :: c :: cs =>
      if isDigitChar c then pyIntDigits (acc * 10 + digitVal c) cs else none
  | acc, c :: cs =>
      if isDigitChar c then pyIntDigits (acc * 10 + digitVal c) cs else none

/-- Magnitude part of Python `int(...)`: a nonempty digit string. -/
def pyIntAbs : List Char → Option Nat
  | [] => none
  | c :: cs => if isDigitChar c then pyIntDigits (digitVal c) cs else none

/-- Sign handling of Python `int(...)`. -/
def pyIntCore : List Char → Option Int
  | '+' :: cs => (pyIntAbs cs).map Int.ofNat
  | '-' :: cs => (pyIntAbs cs).map (fun n => -(n : Int))
  | cs => (pyIntAbs cs).map Int.ofNat

/-- Python `int(s)` for a decimal string: strips whitespace, accepts an
optional sign then digits (with underscores between digits); `none` models a
raised `ValueError`. -/
def pyInt (s : String) : Option Int := pyIntCore (pyStrip s).data

/-! ### TTL parsing (`__init__.py` lines 168-179 and 292-305) -/

/-- TTL parsing of `add_dns_record` (`__init__.py` 168-179): `"auto"`
(case-insensitive) gives the sentinel 1; an integer below 1 is clamped to 1;
a `ValueError` from `int(...)` falls back to 1. The input has already been
stripped by the caller. -/
def parse_ttl_add (s : String) : Int :=
  if pyLower s = "auto" then 1
  else
    match pyInt s with
    | some v => if v < 1 then 1 else v
    | none => 1

/-- TTL parsing of `edit_dns_record` (`__init__.py` 292-305): as in the add
flow, except that a `ValueError` leaves the record's previous TTL `old`
unchanged. -/
def parse_ttl_edit (s : String) (old : Int) : Int :=
  if pyLower s = "auto" then 1
  else
    match pyInt s with
    | some v => if v < 1 then 1 else v
    | none => old

/-- Proxied-flag parsing shared by both flows (`__init__.py` 165 and 288-289):
true exactly when the stripped, lowercased input is `"yes"`. -/
def parse_proxied (s : String) : Bool := pyLower (pyStrip s) == "yes"

example : parse_ttl_add "abc" = 1 := by decide
example : parse_ttl_edit "abc" 300 = 300 := by decide
example : parse_ttl_edit "AUTO" 300 = 1 := by decide
example : parse_ttl_add "-5" = 1 := by decide
example : parse_ttl_add "120" = 120 := by decide
example : pyInt " 12 " = some 12 := by decide
example : pyInt "1_0" = some 10 := by decide
example : pyInt "1_" = none := by decide
example : parse_proxied " Yes " = true := by decide
example : parse_proxied "y" = false := by decide

/-! ### Data model -/

/-- A Cloudflare zone as used by the program: opaque identifier plus display
name. -/
structure Zone where
  id : String
  name : String
deriving Repr, DecidableEq

/-- A DNS record with the fields the program reads and writes. -/
structure DNSRecord where
  id : String
  type : String
  name : String
  content : String
  proxied : Bool
  comment : String
  ttl : Int
deriving Repr, DecidableEq

/-- A remote Cloudflare API mutation, as issued by the program. -/
inductive RemoteCall where
  | create (zoneId : String) (type name content : String)
      (proxied : Bool) (comment : String) (ttl : Int)
  | update (zoneId recordId : String) (type name content : String)
      (proxied : Bool) (comment : String) (ttl : Int)
  | delete (zoneId recordId : String)
deriving Repr, DecidableEq

/-! ### Input validation and the add flow (`__init__.py` 137-195) -/

/-- Embedding of `validate_record_input` (`__init__.py` 137-144): a required field is
rejected (None) exactly when it is empty. -/
def validate_record_input (value : String) : Option String :=
  if value = "" then none else some value

/-- The six line inputs consumed by `add_dns_record`, in prompt order. -/
structure AddInputs where
  typeInput : String
  nameInput : String
  contentInput : String
  proxiedInput : String
  commentInput : String
  ttlInput : String
deriving Repr, DecidableEq

/-- Observable outcome of the add flow: which prompts were shown, which
remote calls were issued, and the returned boolean. -/
structure AddResult where
  prompts : List String
  calls : List RemoteCall
  ok : Bool
deriving Repr, DecidableEq

/-- Embedding of `add_dns_record` (`__init__.py` 147-195).  Each field is prompted for in
turn; a validation failure aborts the flow (returns False) before any remote
call.  `apiOk` models whether the remote `create` succeeds; on failure the
call was still issued and False is returned. -/
def add_dns_record (zoneId : String) (inp : AddInputs) (apiOk : Bool) : AddResult :=
  match validate_record_input (pyUpper (pyStrip inp.typeInput)) with
  | none => ⟨["type"], [], false⟩
  | some newType =>
    match validate_record_input (pyStrip inp.nameInput) with
    | none => ⟨["type", "name"], [], false⟩
    | some newName =>
      match validate_record_input (pyStrip inp.contentInput) with
      | none => ⟨["type", "name", "content"], [], false⟩
      | some newContent =>
        let newProxied := parse_proxied inp.proxiedInput
        let newComment := pyStrip inp.commentInput
        let newTtl := parse_ttl_add (pyStrip inp.ttlInput)
        ⟨["type", "name", "content", "proxied", "comment", "ttl"],
         [RemoteCall.create zoneId newType newName newContent newProxied newComment newTtl],
         apiOk⟩

/-! ### Update and delete (`__init__.py` 198-235) -/

/-- Outcome of a single remote mutation attempt: the calls issued and the
boolean the function returns. -/
structure CallResult where
  calls : List RemoteCall
  ok : Bool
deriving Repr, DecidableEq

/-- Embedding of `update_dns_record` (`__init__.py` 198-215): always sends the full record
as one update call; returns whether the remote call succeeded. -/
def update_dns_record (zoneId : String) (r : DNSRecord) (apiOk : Bool) : CallResult :=
  ⟨[RemoteCall.update zoneId r.id r.type r.name r.content r.proxied r.comment r.ttl], apiOk⟩

/-- Embedding of `delete_dns_record` (`__init__.py` 218-235): asks for confirmation; any
input whose stripped, lowercased form differs from `"y"` cancels with no
remote call; otherwise the delete call is issued and its success returned. -/
def delete_dns_record (zoneId : String) (r : DNSRecord) (confirmInput : String)
    (apiOk : Bool) : CallResult :=
  if pyLower (pyStrip confirmInput) ≠ "y" then ⟨[], false⟩
  else ⟨[RemoteCall.delete zoneId r.id], apiOk⟩

/-! ### The edit loop (`__init__.py` 238-305) -/

/-- One menu selection in `edit_dns_record`, together with the line input the
selected branch consumes. -/
inductive EditChoice where
  | setType (input : String)
  | setName (input : String)
  | setContent (input : String)
  | setProxied (input : String)
  | setComment (input : String)
  | setTTL (input : String)
  | save
  | delete (confirmInput : String)
  | back
  | leave
deriving Repr, DecidableEq

/-- Control outcome of one iteration of the edit loop. -/
inductive EditOutcome where
  | continued
  | returned
  | exited
deriving Repr, DecidableEq

/-- Whether a choice is one of the six field-edit branches. -/
def isFieldEdit : EditChoice → Bool
  | .setType _ => true
  | .setName _ => true
  | .setContent _ => true
  | .setProxied _ => true
  | .setComment _ => true
  | .setTTL _ => true
  | _ => false

/-- One iteration of the `edit_dns_record` loop (`__init__.py` 238-305):
field-edit branches mutate only the in-memory record; Save issues the update
call with the current draft; Delete runs the confirmation flow; Back returns
and the exit option terminates the process. -/
def edit_step (zoneId : String) (r : DNSRecord) (c : EditChoice) (apiOk : Bool) :
    DNSRecord × List RemoteCall × EditOutcome :=
  match c with
  | .leave => (r, [], .exited)
  | .back => (r, [], .returned)
  | .delete confirm =>
      let res := delete_dns_record zoneId r confirm apiOk
      (r, res.calls, if res.ok then .returned else .continued)
  | .save =>
      let res := update_dns_record zoneId r apiOk
      (r, res.calls, if res.ok then .returned else .continued)
  | .setType s =>
      match validate_record_input (pyUpper (pyStrip s)) with
      | some v => ({ r with type := v }, [], .continued)
      | none => (r, [], .continued)
  | .setName s =>
      match validate_record_input (pyStrip s) with
      | some v => ({ r with name := v }, [], .continued)
      | none => (r, [], .continued)
  | .setContent s =>
      match validate_record_input (pyStrip s) with
      | some v => ({ r with content := v }, [], .continued)
      | none => (r, [], .continued)
  | .setProxied s => ({ r with proxied := parse_proxied s }, [], .continued)
  | .setComment s => ({ r with comment := pyStrip s }, [], .continued)
  | .setTTL s => ({ r with ttl := parse_ttl_edit (pyStrip s) r.ttl }, [], .continued)

/-- Run the edit loop over a list of menu selections (each paired with the
success of any remote call it triggers), accumulating issued remote calls,
stopping when an iteration returns or exits. -/
def edit_run (zoneId : String) (r : DNSRecord) :
    List (EditChoice × Bool) → DNSRecord × List RemoteCall
  | [] => (r, [])
  | (c, api) :: rest =>
    match edit_step zoneId r c api with
    | (r', calls, EditOutcome.continued) =>
        let res := edit_run zoneId r' rest
        (res.1, calls ++ res.2)
    | (r', calls, _) => (r', calls)

example :
    edit_run "z" ⟨"r1", "A", "a.com", "1.1.1.1", false, "", 300⟩
      [(EditChoice.setName "b.com", true), (EditChoice.setTTL "abc", true)] =
    (⟨"r1", "A", "b.com", "1.1.1.1", false, "", 300⟩, []) := by decide

/-! ### Config store and login (`__init__.py` 39-96) -/

/-- The configuration dictionary: an insertion-ordered string-to-string map,
as the program only ever stores the `"token"` entry. -/
abbrev Config := List (String × String)

/-- Lookup modelling `"token" in config` plus the read of `config["token"]`. -/
def lookupToken (c : Config) : Option String := c.lookup "token"

/-- Assignment `config["token"] = t` on a config not containing the key (the only case
the program performs): appends the entry. -/
def setToken (c : Config) (t : String) : Config := c ++ [("token", t)]

/-- Deletion `del config["token"]`. -/
def removeToken (c : Config) : Config := c.filter (fun kv => kv.1 != "token")

/-- Observable outcome of `cloudflare_login`: the final in-memory config, the
configs passed to `save_config` in order, the exit code if the process exited,
whether a client was obtained, and whether the token prompt was shown. -/
structure LoginResult where
  finalConfig : Config
  savedConfigs : List Config
  exitCode : Option Nat
  loggedIn : Bool
  promptedForToken : Bool
deriving Repr, DecidableEq

/-- Embedding of `cloudflare_login` (`__init__.py` 69-96).  A stored token is used as-is;
otherwise the user is prompted and the typed token stripped.  An empty token
exits with code 1.  A freshly typed token is saved before verification.  On
verification failure the token (always present at that point) is deleted from
the config, the config saved, and the process exits with code 1.  `verifyOk`
models the remote `user.tokens.verify` outcome per token. -/
def cloudflare_login (config : Config) (typedToken : String)
    (verifyOk : String → Bool) : LoginResult :=
  let stored := lookupToken config
  let token := match stored with
    | some t => t
    | none => pyStrip typedToken
  let prompted := stored.isNone
  if token = "" then ⟨config, [], some 1, false, prompted⟩
  else
    let config1 := match stored with
      | some _ => config
      | none => setToken config token
    let saves1 : List Config := match stored with
      | some _ => []
      | none => [config1]
    if verifyOk token then ⟨config1, saves1, none, true, prompted⟩
    else
      let config2 := removeToken config1
      ⟨config2, saves1 ++ [config2], some 1, false, prompted⟩

/-! ### TUI startup (`main.py` 804-821) -/

/-- Observable outcome of `CFDNSEditApp.on_mount`: which screen was pushed,
whether a Cloudflare client instance was kept, and whether the invalid-key
notification was shown. -/
structure MountResult where
  pushedScreen : String
  cfSet : Bool
  notifiedError : Bool
deriving Repr, DecidableEq

/-- Embedding of `CFDNSEditApp.on_mount` (`main.py` 804-821): with a nonempty environment
token that passes the validator (nonempty after stripping), verification is
attempted; success pushes the manage screen, failure notifies, drops the
client and pushes the login screen.  Without a usable token the login screen
is pushed directly.  No config file is involved and nothing is cleared. -/
def on_mount (envToken : Option String) (verifyOk : String → Bool) : MountResult :=
  match envToken with
  | some t =>
      if t != "" && pyStrip t != "" then
        if verifyOk t then ⟨"manage", true, false⟩
        else ⟨"login", false, true⟩
      else ⟨"login", false, false⟩
  | none => ⟨"login", false, false⟩

/-! ### CLI entry points (`__init__.py` 338-344, `main.py` 878-888) -/

def initVersion : String := "0.1.0"

/-- Modelled from the spec: `cf_dns_edit/__about__.py` is not under src/; it
supplies the TUI entry point's `__version__`.  The spec requires only that "a
version string" is printed, so a concrete placeholder value is used. -/
def aboutVersion : String := "0.1.0"

/-- Observable outcome of a CLI invocation. -/
inductive CliOutcome where
  | version (printed : String) (exitCode : Nat)
  | interactive
  | usageError (exitCode : Nat)
deriving Repr, DecidableEq

/-- Embedding of `main` in `__init__.py` (338-344): if the first argument after the program
name is `--version` or `-v`, print the version and exit 0; otherwise run the
interactive session (there is no further argument parsing). -/
def main_args (args : List String) : CliOutcome :=
  match args with
  | a :: _ =>
      if a = "--version" || a = "-v" then
        CliOutcome.version ("cf-dns-edit version " ++ initVersion) 0
      else CliOutcome.interactive
  | [] => CliOutcome.interactive

/-- Embedding of `cli` in `main.py` (878-888): a click group declaring only the
`--version` flag, invoked without a subcommand runs the TUI.  Per click's
documented behavior, any other argument (an undeclared option such as `-v`,
or an unknown command name) raises a `UsageError`, which exits with code 2
without printing the version. -/
def cli (args : List String) : CliOutcome :=
  match args with
  | [] => CliOutcome.interactive
  | ["--version"] => CliOutcome.version ("cf-dns-edit version " ++ aboutVersion) 0
  | _ => CliOutcome.usageError 2

/-! ### Paginated listings (`__init__.py` 99-134, `main.py` 39-73) -/

/-- Sequentially fetch pages until exhausted, concatenating their elements; a
raised transport error at any fetch aborts the whole listing.  The input is
the sequence of page-fetch outcomes the server produces, in order: the first
entry is the initial `list()` call, later entries the `get_next_page()`
calls. -/
def paginate {α : Type} : List (Except String (List α)) → Except String (List α)
  | [] => Except.ok []
  | f :: rest =>
    match f with
    | Except.error e => Except.error e
    | Except.ok p =>
      match paginate rest with
      | Except.error e => Except.error e
      | Except.ok r => Except.ok (p ++ r)

/-- Embedding of `load_all_domains` (`__init__.py` 99-117): follows pagination, printing a
summary; any exception is caught, reported, and an empty list returned.
Result: the returned zones and the printed messages. -/
def load_all_domains (fetches : List (Except String (List Zone))) :
    List Zone × List String :=
  match paginate fetches with
  | Except.ok zs =>
      (zs, ["Loading domains from Cloudflare...",
            if zs.isEmpty then "No domains found in your Cloudflare account."
            else "Found " ++ toString zs.length ++
              (if zs.length > 1 then " domains." else " domain.")])
  | Except.error e =>
      ([], ["Loading domains from Cloudflare...", "Failed to load domains: " ++ e])

/-- Embedding of `get_dns_records` (`__init__.py` 119-134): same pagination and
error-catching contract for DNS records of a zone. -/
def get_dns_records (fetches : List (Except String (List DNSRecord))) :
    List DNSRecord × List String :=
  match paginate fetches with
  | Except.ok rs =>
      (rs, ["Loading DNS records...",
            "Found " ++ toString rs.length ++
              (if rs.length > 1 then " DNS records" else " DNS record")])
  | Except.error e =>
      ([], ["Loading DNS records...", "Failed to get DNS records: " ++ e])

/-- Embedding of `load_all_domains` in `main.py` (55-73): iterates the SDK's
auto-paginating iterator (which yields the elements of all pages in order),
appending each zone to a list. -/
def load_all_domains_tui (pages : List (List Zone)) : List Zone :=
  pages.flatten.foldl (fun acc z => acc ++ [z]) []

example : load_all_domains [Except.error "boom"] =
    ([], ["Loading domains from Cloudflare...", "Failed to load domains: boom"]) := by
  decide

/-! ### Config persistence (`__init__.py` 39-66)

`save_config` serializes the config with `json.dump(config, f, indent=4)` and
`load_config` reads it back with `json.load`.  The JSON codec below models the
Python standard library pair on the value shape this program persists: a flat
insertion-ordered object of string keys and string values.  `json.dump` with
`indent=4` renders such an object as `{}` when empty, otherwise as one
four-space-indented `"key": "value"` line per entry, separated by `,\n`,
between `{\n` and `\n}`.  Within printable ASCII, only `"` and `\` are
escaped. -/

/-- JSON string escaping of one character (printable-ASCII fragment of
`json.dump`). -/
def escapeChar (c : Char) : List Char :=
  if c = '"' then ['\\', '"']
  else if c = '\\' then ['\\', '\\']
  else [c]

/-- Escape a whole string. -/
def escapeString (s : String) : List Char := s.data.flatMap escapeChar

/-- A JSON string literal, quotes included. -/
def quoteString (s : String) : List Char := '"' :: (escapeString s ++ ['"'])

/-- One indented `"key": "value"` line of the object body. -/
def encodeEntry (kv : String × String) : List Char :=
  [' ', ' ', ' ', ' '] ++ quoteString kv.1 ++ [':', ' '] ++ quoteString kv.2

/-- The object body: entries separated by `,\n`. -/
def encodeBody : Config → List Char
  | [] => []
  | [kv] => encodeEntry kv
  | kv :: rest => encodeEntry kv ++ [',', '\n'] ++ encodeBody rest

/-- Output of `json.dump(config, f, indent=4)` for a flat string-valued object. -/
def json_dump (config : Config) : String :=
  match config with
  | [] => "\x7b\x7d"
  | _ => String.mk ('{' :: '\n' :: (encodeBody config ++ ['\n', '}']))

/-- Read a string literal after its opening quote, undoing the two escapes;
returns the characters read and the remaining input. -/
def takeStringAux (acc : List Char) : List Char → Option (List Char × List Char)
  | [] => none
  | '"' :: rest => some (acc.reverse, rest)
  | '\\' :: c :: rest =>
      if c = '"' || c = '\\' then takeStringAux (c :: acc) rest else none
  | ['\\'] => none
  | c :: rest => takeStringAux (c :: acc) rest

/-- Parse one indented `"key": "value"` line. -/
def parseEntry (cs : List Char) : Option ((String × String) × List Char) :=
  match cs with
  | ' ' :: ' ' :: ' ' :: ' ' :: '"' :: rest =>
    match takeStringAux [] rest with
    | some (k, rest1) =>
      match rest1 with
      | ':' :: ' ' :: '"' :: rest2 =>
        match takeStringAux [] rest2 with
        | some (v, rest3) => some ((String.mk k, String.mk v), rest3)
        | none => none
      | _ => none
    | none => none
  | _ => none

/-- Parse the nonempty object body up to and including the closing `\n}`,
which must end the input. -/
def parseEntries : Nat → List Char → Option Config
  | 0, _ => none
  | fuel + 1, cs =>
    match parseEntry cs with
    | some (kv, rest) =>
      match rest with
      | ',' :: '\n' :: rest2 => (parseEntries fuel rest2).map (kv :: ·)
      | ['\n', '}'] => some [kv]
      | _ => none
    | none => none

/-- Reading with `json.load` on the files this program writes: either the empty object or
a flat nonempty string-valued object in `indent=4` form; `none` models a
raised `JSONDecodeError`. -/
def json_load (s : String) : Option Config :=
  match s.data with
  | ['{', '}'] => some []
  | '{' :: '\n' :: rest => parseEntries (rest.length + 1) rest
  | _ => none

/-- Embedding of `save_config` (`__init__.py` 39-50): the file content written. -/
def save_config (config : Config) : String := json_dump config

/-- Embedding of `load_config` (`__init__.py` 53-66): a missing file or an unparsable file
yields the empty config. -/
def load_config (file : Option String) : Config :=
  match file with
  | none => []
  | some s => (json_load s).getD []

example : save_config [("token", "abc123")] = "\x7b\n    \"token\": \"abc123\"\n\x7d" := by
  decide
example : load_config (some "\x7b\n    \"token\": \"abc123\"\n\x7d") = [("token", "abc123")] := by
  decide
example : load_config (some "not json") = [] := by decide
example : load_config none = [] := by decide
example : load_config (some (save_config [("a", "x\"y"), ("token", "t")])) =
    [("a", "x\"y"), ("token", "t")] := by decide

/-! ### Helper lemmas -/

/-- Rebuilding a string from its characters is the identity. -/
theorem mk_data (s : String) : String.mk s.data = s := by
  cases s
  rfl

/-- Python `str.upper` of a nonempty string is nonempty. -/
theorem pyUpper_ne_empty {s : String} (h : s ≠ "") : pyUpper s ≠ "" := by
  intro he
  apply h
  have hd : s.data.map pyUpperChar = [] := congrArg String.data he
  have hnil : s.data = [] := by
    cases hs : s.data with
    | nil => rfl
    | cons c cs => rw [hs] at hd; simp at hd
  have := congrArg String.mk hnil
  rwa [mk_data] at this

/-- After deleting the token key, the token lookup fails. -/
theorem lookupToken_removeToken (c : Config) : lookupToken (removeToken c) = none := by
  induction c with
  | nil => rfl
  | cons kv rest ih =>
    obtain ⟨k, v⟩ := kv
    by_cases h : k = "token"
    · simpa [removeToken, h] using ih
    · simp only [removeToken, List.filter] at ih ⊢
      have : (k != "token") = true := by simp [h]
      rw [this]
      simp only [lookupToken, List.lookup] at ih ⊢
      have : ("token" == k) = false := by simp [Ne.symm h]
      rw [this]
      exact ih

/-- Case-insensitive string equality, as the specification phrases it. -/
def eqCaseInsensitive (a b : String) : Prop := pyLower a = pyLower b

instance (a b : String) : Decidable (eqCaseInsensitive a b) := by
  unfold eqCaseInsensitive
  infer_instance

/-- A concrete record reused as input in several concrete evaluations. -/
def sampleRecord : DNSRecord := ⟨"rec0", "A", "test.example.com", "1.2.3.4", false, "", 300⟩

/-! ### C1 — TTL parsing -/

/-- C1 counterexample: `"abc"` is non-numeric and not `"Auto"`, yet the add
flow does not reject it: the record is created remotely with the substituted
default TTL 1, so the claim's "rejected ... no default is substituted" fails
for the add-record flow. -/
theorem c1_counterexample :
    pyInt "abc" = none ∧ pyLower "abc" ≠ "auto" ∧
    add_dns_record "zone1" ⟨"A", "test", "1.2.3.4", "no", "", "abc"⟩ true =
      ⟨["type", "name", "content", "proxied", "comment", "ttl"],
       [RemoteCall.create "zone1" "A" "test" "1.2.3.4" false "" 1], true⟩ := by
  refine ⟨by decide, by decide, by decide⟩

/-- C1 (amended): in both flows `"Auto"` (case-insensitively) and integers
below 1 normalize to the sentinel 1 and positive integers map to themselves;
a non-numeric, non-"Auto" input leaves the TTL unchanged in the edit flow but
falls back to the sentinel 1 in the add flow; the edit loop's TTL branch
applies exactly this parse to the stripped input. -/
theorem c1_ttl_parsing (s : String) (old : Int) :
    (pyLower s = "auto" → parse_ttl_add s = 1 ∧ parse_ttl_edit s old = 1) ∧
    (pyLower s ≠ "auto" → ∀ v : Int, pyInt s = some v → v < 1 →
      parse_ttl_add s = 1 ∧ parse_ttl_edit s old = 1) ∧
    (pyLower s ≠ "auto" → ∀ v : Int, pyInt s = some v → 1 ≤ v →
      parse_ttl_add s = v ∧ parse_ttl_edit s old = v) ∧
    (pyLower s ≠ "auto" → pyInt s = none →
      parse_ttl_add s = 1 ∧ parse_ttl_edit s old = old) ∧
    (∀ z r api, ((edit_step z r (EditChoice.setTTL s) api).1).ttl
        = parse_ttl_edit (pyStrip s) r.ttl) := by
  refine ⟨?_, ?_, ?_, ?_, ?_⟩
  · intro h
    simp [parse_ttl_add, parse_ttl_edit, h]
  · intro h v hv hlt
    simp [parse_ttl_add, parse_ttl_edit, h, hv, hlt]
  · intro h v hv hle
    have hnlt : ¬(v < 1) := not_lt.mpr hle
    simp [parse_ttl_add, parse_ttl_edit, h, hv, hnlt]
  · intro h hn
    simp [parse_ttl_add, parse_ttl_edit, h, hn]
  · intro z r api
    rfl

/-- C1 witness: the clamping case of `c1_ttl_parsing` evaluated at input
`"0"`. -/
theorem c1_ttl_parsing_witness :
    parse_ttl_add "0" = 1 ∧ parse_ttl_edit "0" 99 = 1 :=
  (c1_ttl_parsing "0" 99).2.1 (by decide) 0 (by decide) (by decide)

/-! ### C3 — delete confirmation -/

/-- C3 counterexample: the input `" y"` differs from `"y"` even
case-insensitively, yet the delete flow strips it and issues the remote
delete call, so "any other input cancels ... no remote call" fails as
stated. -/
theorem c3_counterexample :
    ¬ eqCaseInsensitive " y" "y" ∧
    delete_dns_record "z1" sampleRecord " y" true =
      ⟨[RemoteCall.delete "z1" "rec0"], true⟩ := by
  refine ⟨by decide, by decide⟩

/-- C3 (amended): the remote delete call is issued iff the confirmation
input, after stripping surrounding whitespace, equals "y" case-insensitively;
otherwise the deletion is cancelled with no remote call and a False return. -/
theorem c3_delete_confirmation (z : String) (r : DNSRecord) (s : String) (apiOk : Bool) :
    ((delete_dns_record z r s apiOk).calls ≠ [] ↔ eqCaseInsensitive (pyStrip s) "y") ∧
    (¬ eqCaseInsensitive (pyStrip s) "y" →
      delete_dns_record z r s apiOk = ⟨[], false⟩) ∧
    (eqCaseInsensitive (pyStrip s) "y" →
      (delete_dns_record z r s apiOk).calls = [RemoteCall.delete z r.id]) := by
  have hy : pyLower "y" = "y" := rfl
  unfold eqCaseInsensitive
  rw [hy]
  by_cases h : pyLower (pyStrip s) = "y" <;> simp [delete_dns_record, h]

/-- C3 witness: the cancellation branch of `c3_delete_confirmation` at the
input `"n"`. -/
theorem c3_delete_confirmation_witness :
    delete_dns_record "z1" sampleRecord "n" true = ⟨[], false⟩ :=
  (c3_delete_confirmation "z1" sampleRecord "n" true).2.1 (by decide)

/-! ### C7 — empty record name in the add flow -/

/-- C7 counterexample: with a whitespace-only name the add flow rejects
before any network call (confirming that half of the claim), but it does not
re-prompt for the name: the flow ends after a single name prompt, returning
False to the record menu. -/
theorem c7_counterexample :
    add_dns_record "z1" ⟨"A", "   ", "1.2.3.4", "no", "", "300"⟩ true =
      ⟨["type", "name"], [], false⟩ ∧
    (add_dns_record "z1" ⟨"A", "   ", "1.2.3.4", "no", "", "300"⟩ true).prompts.count
      "name" = 1 := by
  refine ⟨by decide, by decide⟩

/-- C7 (amended): whenever the stripped name input is empty (and the type
input passed validation), the add flow issues no remote call, returns False,
and stops after prompting once for type and once for name — it does not
re-prompt. -/
theorem c7_empty_name (z : String) (inp : AddInputs) (api : Bool)
    (htype : pyStrip inp.typeInput ≠ "") (hname : pyStrip inp.nameInput = "") :
    (add_dns_record z inp api).calls = [] ∧
    (add_dns_record z inp api).ok = false ∧
    (add_dns_record z inp api).prompts = ["type", "name"] := by
  have hu : pyUpper (pyStrip inp.typeInput) ≠ "" := pyUpper_ne_empty htype
  simp [add_dns_record, validate_record_input, hu, hname]

/-- C7 witness: `c7_empty_name` at a concrete input with an empty name. -/
theorem c7_empty_name_witness :
    (add_dns_record "z1" ⟨"A", " ", "1.2.3.4", "no", "", "300"⟩ true).calls = [] ∧
    (add_dns_record "z1" ⟨"A", " ", "1.2.3.4", "no", "", "300"⟩ true).ok = false ∧
    (add_dns_record "z1" ⟨"A", " ", "1.2.3.4", "no", "", "300"⟩ true).prompts =
      ["type", "name"] :=
  c7_empty_name "z1" ⟨"A", " ", "1.2.3.4", "no", "", "300"⟩ true (by decide) (by decide)

/-! ### C9 — CLI version flag -/

/-- C9 counterexample: the TUI entry point (`main.py`) declares only the
`--version` flag, so invoking it with `-v` is a click usage error (exit code
2) and no version string is printed, refuting the claim for that entry
point. -/
theorem c9_counterexample : cli ["-v"] = CliOutcome.usageError 2 := by decide

/-- C9 (amended): `--version` prints a version string and exits 0 in both
entry points, `-v` does so only in the menu-based entry point
(`__init__.py`), and a no-argument invocation launches the interactive
session in both. -/
theorem c9_version_flag :
    main_args ["--version"] = CliOutcome.version ("cf-dns-edit version " ++ initVersion) 0 ∧
    main_args ["-v"] = CliOutcome.version ("cf-dns-edit version " ++ initVersion) 0 ∧
    (∀ rest, main_args ("--version" :: rest) =
      CliOutcome.version ("cf-dns-edit version " ++ initVersion) 0) ∧
    main_args [] = CliOutcome.interactive ∧
    cli ["--version"] = CliOutcome.version ("cf-dns-edit version " ++ aboutVersion) 0 ∧
    cli [] = CliOutcome.interactive := by
  refine ⟨by decide, by decide, ?_, by decide, by decide, by decide⟩
  intro rest
  rfl

/-! ### C10 — proxied flag parsing -/

/-- C10: in both flows the proxied flag is true iff the input, stripped and
lowercased, is exactly "yes"; in particular "y", "true" and "" give false
while " Yes " gives true, and the edit loop's proxied branch applies exactly
this parse. -/
theorem c10_proxied_flag (s : String) :
    (parse_proxied s = true ↔ pyLower (pyStrip s) = "yes") ∧
    parse_proxied "y" = false ∧
    parse_proxied "true" = false ∧
    parse_proxied "" = false ∧
    parse_proxied " Yes " = true ∧
    (∀ z r api, ((edit_step z r (EditChoice.setProxied s) api).1).proxied
        = parse_proxied s) := by
  refine ⟨?_, by decide, by decide, by decide, by decide, ?_⟩
  · simp [parse_proxied]
  · intro z r api
    rfl

/-! ### C2 — startup with a failing stored token -/

/-- C2 counterexample: with the stored token `"abc123"` and failing remote
verification, the menu-based startup clears the token and saves the config,
but then exits with code 1: the user is never returned to a login prompt
(`promptedForToken = false`), refuting the claim for this (interactive)
startup flow. -/
theorem c2_counterexample :
    cloudflare_login [("token", "abc123")] "" (fun _ => false) =
      ⟨[], [[]], some 1, false, false⟩ := by decide

/-- C2 (amended): when a stored token fails remote verification in the
menu-based entry point, the token is cleared from the config and the process
exits with code 1 without any login re-prompt; in the TUI entry point a
nonempty environment token that fails verification pushes the login screen
with an error notification and no exit (and no config is involved). -/
theorem c2_auth_failure (cfg : Config) (t typed : String) (verify : String → Bool)
    (hstored : lookupToken cfg = some t) (hne : t ≠ "") (hfail : verify t = false) :
    (cloudflare_login cfg typed verify).finalConfig = removeToken cfg ∧
    lookupToken (cloudflare_login cfg typed verify).finalConfig = none ∧
    (cloudflare_login cfg typed verify).exitCode = some 1 ∧
    (cloudflare_login cfg typed verify).loggedIn = false ∧
    (cloudflare_login cfg typed verify).promptedForToken = false ∧
    (∀ t2, pyStrip t2 ≠ "" → verify t2 = false →
      on_mount (some t2) verify = ⟨"login", false, true⟩) := by
  have hlogin : cloudflare_login cfg typed verify =
      ⟨removeToken cfg, [removeToken cfg], some 1, false, false⟩ := by
    simp [cloudflare_login, hstored, hne, hfail]
  refine ⟨by rw [hlogin], ?_, by rw [hlogin], by rw [hlogin], by rw [hlogin], ?_⟩
  · rw [hlogin]
    exact lookupToken_removeToken cfg
  · intro t2 h1 h2
    have hne2 : t2 ≠ "" := by
      intro h
      exact h1 (by rw [h]; rfl)
    simp [on_mount, hne2, h1, h2]

/-- C2 witness: `c2_auth_failure` at the stored token `"abc123"` with a
verifier that always fails. -/
theorem c2_auth_failure_witness :
    (cloudflare_login [("token", "abc123")] "" (fun _ => false)).exitCode = some 1 ∧
    lookupToken (cloudflare_login [("token", "abc123")] "" (fun _ => false)).finalConfig
      = none :=
  ⟨(c2_auth_failure [("token", "abc123")] "abc123" "" (fun _ => false)
      (by decide) (by decide) rfl).2.2.1,
   (c2_auth_failure [("token", "abc123")] "abc123" "" (fun _ => false)
      (by decide) (by decide) rfl).2.1⟩

/-! ### C5 — pagination concatenates all pages -/

/-- Successful page fetches concatenate in order. -/
theorem paginate_ok {α : Type} (pages : List (List α)) :
    paginate (pages.map Except.ok) = Except.ok pages.flatten := by
  induction pages with
  | nil => rfl
  | cons p rest ih => simp [paginate, ih]

/-- C5: when every page fetch succeeds, the menu-based zone listing returns
exactly the concatenation of the pages in server order, and the TUI listing
(which iterates the SDK's auto-paginating iterator) collects the same
concatenation — no duplicates, no omissions. -/
theorem c5_pagination (pages : List (List Zone)) :
    (load_all_domains (pages.map Except.ok)).1 = pages.flatten ∧
    load_all_domains_tui pages = pages.flatten := by
  constructor
  · simp [load_all_domains, paginate_ok]
  · have hfold : ∀ (l acc : List Zone), l.foldl (fun a z => a ++ [z]) acc = acc ++ l := by
      intro l
      induction l with
      | nil => simp
      | cons x xs ih => intro acc; simp [List.foldl, ih]
    simp [load_all_domains_tui, hfold]

/-! ### C6 — transport errors yield empty listings, reported, not fatal -/

/-- If any fetch in the sequence raises, the whole pagination raises (with
the first error raised). -/
theorem paginate_error_of_mem {α : Type} (fetches : List (Except String (List α)))
    (h : ∃ e, Except.error e ∈ fetches) :
    ∃ m, paginate fetches = Except.error m ∧ Except.error m ∈ fetches := by
  induction fetches with
  | nil => simp at h
  | cons f rest ih =>
    cases f with
    | error e => exact ⟨e, by simp [paginate], by simp⟩
    | ok p =>
      obtain ⟨e, he⟩ := h
      have hmem : (Except.error e : Except String (List α)) ∈ rest := by
        simpa using he
      obtain ⟨m, hm, hmemr⟩ := ih ⟨e, hmem⟩
      exact ⟨m, by simp [paginate, hm], by simp [hmemr]⟩

/-- C6: a transport error during a zone or record listing makes the listing
return the empty list and report the failure; the embedding is a total
function (no exception escapes, the process does not terminate). -/
theorem c6_transport_error (zf : List (Except String (List Zone)))
    (rf : List (Except String (List DNSRecord)))
    (hz : ∃ e, Except.error e ∈ zf) (hr : ∃ e, Except.error e ∈ rf) :
    (load_all_domains zf).1 = [] ∧
    (∃ m, Except.error m ∈ zf ∧
      (load_all_domains zf).2 =
        ["Loading domains from Cloudflare...", "Failed to load domains: " ++ m]) ∧
    (get_dns_records rf).1 = [] ∧
    (∃ m, Except.error m ∈ rf ∧
      (get_dns_records rf).2 =
        ["Loading DNS records...", "Failed to get DNS records: " ++ m]) := by
  obtain ⟨m, hm, hmem⟩ := paginate_error_of_mem zf hz
  obtain ⟨m2, hm2, hmem2⟩ := paginate_error_of_mem rf hr
  refine ⟨?_, ⟨m, hmem, ?_⟩, ?_, ⟨m2, hmem2, ?_⟩⟩ <;>
    simp [load_all_domains, get_dns_records, hm, hm2]

/-- C6 witness: `c6_transport_error` at one-fetch listings that raise
`"boom"` and `"net"`. -/
theorem c6_transport_error_witness :
    (load_all_domains [Except.error "boom"]).1 = [] ∧
    (get_dns_records [Except.ok [], Except.error "net"]).1 = [] :=
  ⟨(c6_transport_error [Except.error "boom"] [Except.ok [], Except.error "net"]
      ⟨"boom", by simp⟩ ⟨"net", by simp⟩).1,
   (c6_transport_error [Except.error "boom"] [Except.ok [], Except.error "net"]
      ⟨"boom", by simp⟩ ⟨"net", by simp⟩).2.2.1⟩

/-! ### C8 — field edits mutate the draft only -/

/-- A field-edit iteration of the edit loop issues no remote call and
continues the loop. -/
theorem edit_step_field (z : String) (r : DNSRecord) (c : EditChoice) (api : Bool)
    (hc : isFieldEdit c = true) :
    (edit_step z r c api).2.1 = [] ∧ (edit_step z r c api).2.2 = EditOutcome.continued := by
  cases c with
  | setType s =>
    rcases hval : validate_record_input (pyUpper (pyStrip s)) with _ | v <;>
      simp [edit_step, hval]
  | setName s =>
    rcases hval : validate_record_input (pyStrip s) with _ | v <;>
      simp [edit_step, hval]
  | setContent s =>
    rcases hval : validate_record_input (pyStrip s) with _ | v <;>
      simp [edit_step, hval]
  | setProxied s => simp [edit_step]
  | setComment s => simp [edit_step]
  | setTTL s => simp [edit_step]
  | save => simp [isFieldEdit] at hc
  | delete s => simp [isFieldEdit] at hc
  | back => simp [isFieldEdit] at hc
  | leave => simp [isFieldEdit] at hc

/-- C8: a sequence of field edits (type, name, content, proxied, comment,
TTL) in the record-detail loop mutates only the in-memory draft and issues no
remote call; the update carrying the full current draft is issued exactly by
the Save branch (and succeeds or keeps the loop running per the remote
outcome). -/
theorem c8_draft_only (z : String) (r : DNSRecord) (steps : List (EditChoice × Bool))
    (h : ∀ p ∈ steps, isFieldEdit p.1 = true) :
    (edit_run z r steps).2 = [] ∧
    (∀ api, edit_step z r EditChoice.save api =
      (r, [RemoteCall.update z r.id r.type r.name r.content r.proxied r.comment r.ttl],
       if api then EditOutcome.returned else EditOutcome.continued)) := by
  constructor
  · induction steps generalizing r with
    | nil => rfl
    | cons p rest ih =>
      obtain ⟨c, api⟩ := p
      have hc : isFieldEdit c = true := h (c, api) (by simp)
      obtain ⟨hcalls, hout⟩ := edit_step_field z r c api hc
      have hstep : edit_step z r c api =
          ((edit_step z r c api).1, [], EditOutcome.continued) := by
        rcases he : edit_step z r c api with ⟨r2, calls, out⟩
        rw [he] at hcalls hout
        simp at hcalls hout
        rw [hcalls, hout]
      rw [edit_run, hstep]
      simp only []
      have ihr := ih (edit_step z r c api).1 (fun p hp => h p (by simp [hp]))
      simpa using ihr
  · intro api
    simp [edit_step, update_dns_record]

/-- C8 witness: `c8_draft_only` on a two-step field-edit sequence over the
sample record. -/
theorem c8_draft_only_witness :
    (edit_run "z1" sampleRecord
      [(EditChoice.setName "www", true), (EditChoice.setTTL "600", true)]).2 = [] :=
  (c8_draft_only "z1" sampleRecord
    [(EditChoice.setName "www", true), (EditChoice.setTTL "600", true)]
    (by decide)).1

/-! ### C4 — config round-trip -/

/-- Printable ASCII: the character range on which the modelled `json.dump`
output is byte-for-byte the Python output (outside it Python would emit
further escapes). -/
def plainChar (c : Char) : Bool := 0x20 ≤ c.toNat && c.toNat ≤ 0x7e

def plainString (s : String) : Bool := s.data.all plainChar

/-- Reading one escaped character undoes the escaping. -/
theorem takeStringAux_escapeChar (c : Char) (acc rest : List Char) :
    takeStringAux acc (escapeChar c ++ rest) = takeStringAux (c :: acc) rest := by
  by_cases h1 : c = '"'
  · subst h1
    simp [escapeChar, takeStringAux]
  · by_cases h2 : c = '\\'
    · subst h2
      simp [escapeChar, takeStringAux]
    · simp [escapeChar, h1, h2, takeStringAux]

/-- Reading an escaped character run stops exactly at the closing quote and
returns the original characters. -/
theorem takeStringAux_escapeString (l : List Char) :
    ∀ (acc rest : List Char),
      takeStringAux acc (l.flatMap escapeChar ++ '"' :: rest) =
        some (acc.reverse ++ l, rest) := by
  induction l with
  | nil =>
    intro acc rest
    simp [takeStringAux]
  | cons c cs ih =>
    intro acc rest
    rw [List.flatMap_cons, List.append_assoc, takeStringAux_escapeChar, ih]
    simp

/-- Parsing one encoded `"key": "value"` line recovers the pair and leaves
the tail untouched. -/
theorem parseEntry_encodeEntry (kv : String × String) (tail : List Char) :
    parseEntry (encodeEntry kv ++ tail) = some (kv, tail) := by
  obtain ⟨k, v⟩ := kv
  simp only [encodeEntry, quoteString, escapeString, List.cons_append, List.nil_append,
    List.append_assoc, List.singleton_append]
  rw [parseEntry]
  rw [takeStringAux_escapeString]
  simp only [List.reverse_nil, List.nil_append]
  rw [takeStringAux_escapeString]
  simp [mk_data]

/-- Every encoded entry line is nonempty, so the body is at least as long as
the entry list. -/
theorem length_le_encodeBody (entries : Config) :
    entries.length ≤ (encodeBody entries).length := by
  induction entries with
  | nil => simp [encodeBody]
  | cons kv rest ih =>
    have h1 : 1 ≤ (encodeEntry kv).length := by
      simp [encodeEntry, quoteString]
    cases rest with
    | nil =>
      simpa [encodeBody] using h1
    | cons kv2 rest2 =>
      simp only [encodeBody, List.length_append, List.length_cons] at ih ⊢
      omega

/-- Parsing the encoded body with enough fuel recovers the entry list. -/
theorem parseEntries_encodeBody (entries : Config) :
    ∀ fuel, entries ≠ [] → entries.length ≤ fuel →
      parseEntries fuel (encodeBody entries ++ ['\n', '}']) = some entries := by
  induction entries with
  | nil => intro fuel h _; exact absurd rfl h
  | cons kv rest ih =>
    intro fuel _ hlen
    cases fuel with
    | zero => simp at hlen
    | succ f =>
      cases rest with
      | nil =>
        simp only [encodeBody]
        rw [parseEntries, parseEntry_encodeEntry]
        rfl
      | cons kv2 rest2 =>
        simp only [encodeBody, List.append_assoc, List.cons_append, List.nil_append]
        rw [parseEntries, parseEntry_encodeEntry]
        have hlen2 : (kv2 :: rest2).length ≤ f := by
          simpa using Nat.le_of_succ_le_succ (by simpa using hlen)
        show Option.map (fun x => kv :: x)
          (parseEntries f (encodeBody (kv2 :: rest2) ++ ['\n', '}'])) = _
        rw [ih f (by simp) hlen2]
        rfl

/-- C4: saving a flat string-valued configuration (the shape this program
persists, with printable-ASCII keys and values, where the modelled codec is
byte-for-byte Python's `json.dump`/`json.load`) and loading it back returns
the same configuration. -/
theorem c4_config_roundtrip (config : Config)
    (h : ∀ kv ∈ config, plainString kv.1 = true ∧ plainString kv.2 = true) :
    load_config (some (save_config config)) = config := by
  cases config with
  | nil => rfl
  | cons kv rest =>
    simp only [save_config, json_dump, load_config, json_load]
    have hb := length_le_encodeBody (kv :: rest)
    rw [parseEntries_encodeBody (kv :: rest) _ (by simp)
      (by simp only [List.length_append]; omega)]
    rfl

/-- C4 witness: `c4_config_roundtrip` at the config storing token
`"abc123"`. -/
theorem c4_config_roundtrip_witness :
    load_config (some (save_config [("token", "abc123")])) = [("token", "abc123")] :=
  c4_config_roundtrip [("token", "abc123")] (by decide)

end CfDnsEdit
